import Mathlib

/-!
Shallow embedding of the validation and relationship-integrity layer of the
ecommerce-backend repository (Django apps `products` and `users`), together
with theorems checking the specification claims against it.

Conventions of the embedding:
* the relational store is a `Store` structure of lists of rows;
* a model `save`/`delete` returns the (possibly) updated store together with
  `Option Err`; on `some e` the store component equals the input store,
  mirroring the fact that a raised exception prevents the write;
* Python `Decimal` fields are modelled as `Rat`, Django `IntegerField` as
  `Int`, `CharField`/`TextField` as `String`;
* Python truthiness of a string (`not self.name`) is emptiness; a foreign-key
  attribute is `Option Nat` (the referenced id), and reading an unset
  non-null foreign key raises `RelatedObjectDoesNotExist`, modelled as
  `Err.objectDoesNotExist` (this is what `if not self.unit:` and
  `if not self.cart:` actually do in Django, and what the repository tests
  `test_product_unit_is_required` and `test_cart_item_cart_cannot_be_empty`
  assert).
-/

set_option linter.unusedVariables false

namespace ECommerce

/-- Exception taxonomy of the code paths under study, from the Django /
DRF exceptions the source raises. `notFound` carries the `detail` message of
`rest_framework.exceptions.NotFound`; `fieldError` models
`serializers.ValidationError` keyed by a field name. -/
inductive Err where
  | validationError (msg : String)
  | valueError (msg : String)
  | objectDoesNotExist
  | multipleObjectsReturned
  | integrityError
  | notFound (detail : String)
  | fieldError (field : String) (msg : String)
  deriving DecidableEq

/-- Row of `products.models.Unit` (name avoids clashing with Lean `Unit`). -/
structure Unit' where
  id : Nat
  name : String
  symbol : String
  deriving DecidableEq

/-- Row of `products.models.Category`; `parent` is a nullable self-reference
declared `on_delete=SET_NULL`. -/
structure Category where
  id : Nat
  name : String
  parent : Option Nat
  deriving DecidableEq

/-- Row of `products.models.Product`. `unit` is a non-null foreign key to
`Unit`; it is `Option Nat` because a candidate (unsaved) instance may have it
unset. -/
structure Product where
  id : Nat
  name : String
  description : String
  price : Rat
  discount : Int
  unit : Option Nat
  quantity_per_unit : Rat
  currency : String
  deriving DecidableEq

/-- Row of `products.models.ProductCategory`, the explicit join entity;
both foreign keys are declared `on_delete=CASCADE`. -/
structure ProductCategory where
  id : Nat
  product : Nat
  category : Nat
  deriving DecidableEq

/-- Row of `products.models.Image`; `image_file` is the stored file name and
`product` a cascade-deleted foreign key. -/
structure Image where
  id : Nat
  image_file : String
  product : Nat
  deriving DecidableEq

/-- Row of `products.models.Cart`. -/
structure Cart where
  id : Nat
  user : Nat
  deriving DecidableEq

/-- Row of `products.models.CartItem`; `cart` and `product` are non-null
foreign keys, possibly unset on a candidate instance. -/
structure CartItem where
  id : Nat
  cart : Option Nat
  product : Option Nat
  quantity : Int
  deriving DecidableEq

/-- The relational store of the products app, plus `files`: the set of file
names present in media storage (backing files of `Image.image_file`). -/
structure Store where
  units : List Unit'
  categories : List Category
  products : List Product
  productCategories : List ProductCategory
  images : List Image
  files : List String
  carts : List Cart
  cartItems : List CartItem
  deriving DecidableEq

/-- Character class of `django.core.validators.validate_slug`:
letters, digits, hyphen, underscore. -/
def isSlugChar (c : Char) : Bool :=
  c.isAlpha || c.isDigit || c = '-' || c = '_'

/-- `django.core.validators.validate_slug`: non-empty and all characters in
the slug class (regex `[-a-zA-Z0-9_]+`, ASCII model). -/
def validate_slug (s : String) : Bool :=
  s ≠ "" && s.data.all isSlugChar

/-- `Product.clean` (products/models.py lines 117-143), check for check in
source order. `not self.price or self.price <= 0` collapses to `price ≤ 0`
for a numeric field, and likewise for `quantity_per_unit`; `if not self.unit`
on an unset foreign key raises `RelatedObjectDoesNotExist`. -/
def Product.clean (p : Product) : Option Err :=
  if p.name = "" then some (.validationError "Name cannot be empty.")
  else if 200 < p.name.length then
    some (.validationError "Name cannot exceed 200 characters.")
  else if p.description = "" then
    some (.validationError "Description cannot be empty.")
  else if p.price ≤ 0 then
    some (.validationError "Price must be greater than 0.")
  else if p.unit.isNone then some .objectDoesNotExist
  else if p.quantity_per_unit ≤ 0 then
    some (.validationError "Quantity per unit must be greater than 0.")
  else if p.currency = "" then
    some (.validationError "Currency cannot be empty.")
  else if 3 < p.currency.length then
    some (.validationError "Currency cannot exceed 3 characters.")
  else if validate_slug p.currency = false then
    some (.validationError "Currency must be a valid ISO 4217 code.")
  else if p.discount < 0 ∨ 100 < p.discount then
    some (.validationError "Discount must be between 0 and 100.")
  else none

/-- Insert-or-update of a product row by primary key, the effect of
`super().save()` for a `Product`. -/
def upsertProduct (ps : List Product) (p : Product) : List Product :=
  if ps.any (fun q => q.id = p.id) then
    ps.map (fun q => if q.id = p.id then p else q)
  else ps ++ [p]

/-- `Product.save` (products/models.py lines 155-157): run `clean`, then
write the row; the database additionally enforces the foreign key to `Unit`
(`integrityError` when the referenced unit row is absent). -/
def Product.save (p : Product) (db : Store) : Store × Option Err :=
  match p.clean with
  | some e => (db, some e)
  | none =>
    match p.unit with
    | none => (db, some .integrityError)
    | some u =>
      if db.units.any (fun r => r.id = u) then
        ({ db with products := upsertProduct db.products p }, none)
      else (db, some .integrityError)

/-- The conjunction of field constraints named by claim C1. -/
def productC1Constraints (p : Product) : Prop :=
  0 < p.price ∧ 0 ≤ p.discount ∧ p.discount ≤ 100 ∧
    0 < p.quantity_per_unit ∧ p.currency ≠ "" ∧ p.currency.length ≤ 3

set_option maxHeartbeats 1000000 in
lemma product_clean_none_implies (p : Product) (h : p.clean = none) :
    productC1Constraints p := by
  unfold Product.clean at h
  unfold productC1Constraints
  split_ifs at h with h1 h2 h3 h4 h5 h6 h7 h8 h9 h10
  push_neg at h4 h6 h10
  exact ⟨h4, h10.1, h10.2, h6, h7, le_of_not_lt h8⟩

lemma product_clean_some_of_not (p : Product)
    (h : ¬ productC1Constraints p) : ∃ e, p.clean = some e := by
  cases hc : p.clean with
  | none => exact absurd (product_clean_none_implies p hc) h
  | some e => exact ⟨e, rfl⟩

/-- Claim C1: a Product save is accepted only if `price > 0`,
`0 ≤ discount ≤ 100`, `quantity_per_unit > 0`, and the currency is non-empty
with length at most 3; if any of these constraints is violated, the save
raises an error and the product is not persisted (the store is unchanged). -/
theorem product_save_validation (db : Store) (p : Product) :
    (∀ db', Product.save p db = (db', none) → productC1Constraints p) ∧
    (¬ productC1Constraints p →
      (Product.save p db).1 = db ∧ ∃ e, (Product.save p db).2 = some e) := by
  constructor
  · intro db' hsave
    cases hc : p.clean with
    | some e => unfold Product.save at hsave; rw [hc] at hsave; simp at hsave
    | none => exact product_clean_none_implies p hc
  · intro hviol
    obtain ⟨e, he⟩ := product_clean_some_of_not p hviol
    unfold Product.save
    rw [he]
    exact ⟨rfl, e, rfl⟩

/-- Store used by the claim C1 witness: a single unit row. -/
def dbC1 : Store :=
  { units := [⟨1, "Kilogram", "kg"⟩], categories := [], products := [],
    productCategories := [], images := [], files := [], carts := [],
    cartItems := [] }

/-- Product used by the claim C1 witness (the example scenario values). -/
def pC1 : Product :=
  { id := 1, name := "Test Product", description := "This is a test product",
    price := 100, discount := 10, unit := some 1, quantity_per_unit := 1,
    currency := "USD" }

/-- Witness for claim C1: the example product saves successfully into
`dbC1`, and the theorem then yields its field constraints concretely. -/
theorem product_save_validation_witness : productC1Constraints pC1 :=
  (product_save_validation dbC1 pC1).1
    ({ dbC1 with products := [pC1] }) (by decide)

/-- `CartItem.clean` (products/models.py lines 228-236): reading an unset
`cart` or `product` foreign key raises `RelatedObjectDoesNotExist` (the
repository test `test_cart_item_cart_cannot_be_empty` expects
`ObjectDoesNotExist`); a non-positive quantity raises `ValueError` — note
the source raises `ValueError` here, not `ValidationError`, and the test
`test_cart_item_quantity_cannot_be_zero` expects `ValueError`. -/
def CartItem.clean (ci : CartItem) : Option Err :=
  if ci.cart.isNone then some .objectDoesNotExist
  else if ci.product.isNone then some .objectDoesNotExist
  else if ci.quantity ≤ 0 then
    some (.valueError "Quantity must be greater than 0.")
  else none

/-- Insert-or-update of a cart-item row by primary key. -/
def upsertCartItem (xs : List CartItem) (ci : CartItem) : List CartItem :=
  if xs.any (fun y => y.id = ci.id) then
    xs.map (fun y => if y.id = ci.id then ci else y)
  else xs ++ [ci]

/-- `CartItem.save` (products/models.py lines 238-240): run `clean`, then
write the row; the database enforces the foreign keys to `Cart` and
`Product`. -/
def CartItem.save (ci : CartItem) (db : Store) : Store × Option Err :=
  match ci.clean with
  | some e => (db, some e)
  | none =>
    match ci.cart, ci.product with
    | some c, some p =>
      if db.carts.any (fun r => r.id = c) && db.products.any (fun r => r.id = p) then
        ({ db with cartItems := upsertCartItem db.cartItems ci }, none)
      else (db, some .integrityError)
    | _, _ => (db, some .integrityError)

/-- Claim C3: a CartItem save with quantity 0 or negative is rejected and the
stored cart items are unchanged; with the cart and product foreign keys set
the rejection is precisely the quantity error; a save with positive quantity
and existing cart and product rows succeeds and stores the item. -/
theorem cart_item_save_quantity (db : Store) (ci : CartItem) :
    (ci.quantity ≤ 0 →
      (CartItem.save ci db).1 = db ∧ ∃ e, (CartItem.save ci db).2 = some e) ∧
    (ci.quantity ≤ 0 → ci.cart.isSome → ci.product.isSome →
      (CartItem.save ci db).2 =
        some (.valueError "Quantity must be greater than 0.")) ∧
    (∀ c p, ci.cart = some c → ci.product = some p → 0 < ci.quantity →
      db.carts.any (fun r => r.id = c) = true →
      db.products.any (fun r => r.id = p) = true →
      CartItem.save ci db =
        ({ db with cartItems := upsertCartItem db.cartItems ci }, none)) := by
  refine ⟨?_, ?_, ?_⟩
  · intro hq
    have hc : ∃ e, ci.clean = some e := by
      unfold CartItem.clean
      split_ifs with h1 h2 <;> exact ⟨_, rfl⟩
    obtain ⟨e, he⟩ := hc
    unfold CartItem.save
    rw [he]
    exact ⟨rfl, e, rfl⟩
  · intro hq hcart hprod
    obtain ⟨c, hc⟩ := Option.isSome_iff_exists.mp hcart
    obtain ⟨p, hp⟩ := Option.isSome_iff_exists.mp hprod
    have he : ci.clean = some (.valueError "Quantity must be greater than 0.") := by
      unfold CartItem.clean
      rw [hc, hp]
      simp [hq]
    unfold CartItem.save
    rw [he]
  · intro c p hc hp hq hcarts hprods
    have he : ci.clean = none := by
      unfold CartItem.clean
      rw [hc, hp]
      simp [not_le.mpr hq]
    unfold CartItem.save
    rw [he, hc, hp]
    simp [hcarts, hprods]

/-- Store used by the claim C3 witness: one user cart and the example
product. -/
def dbC3 : Store :=
  { units := [⟨1, "Kilogram", "kg"⟩], categories := [], products := [pC1],
    productCategories := [], images := [], files := [],
    carts := [⟨1, 1⟩], cartItems := [] }

/-- Witness for claim C3: a zero-quantity item is rejected with the
`ValueError` and the store is unchanged; the same item with quantity 1 is
stored. -/
theorem cart_item_save_quantity_witness :
    (CartItem.save ⟨1, some 1, some 1, 0⟩ dbC3).1 = dbC3 ∧
    (CartItem.save ⟨1, some 1, some 1, 0⟩ dbC3).2 =
      some (.valueError "Quantity must be greater than 0.") ∧
    CartItem.save ⟨1, some 1, some 1, 1⟩ dbC3 =
      ({ dbC3 with cartItems := [⟨1, some 1, some 1, 1⟩] }, none) := by
  refine ⟨((cart_item_save_quantity dbC3 ⟨1, some 1, some 1, 0⟩).1 (by decide)).1,
    (cart_item_save_quantity dbC3 ⟨1, some 1, some 1, 0⟩).2.1 (by decide)
      (by decide) (by decide), ?_⟩
  have h := (cart_item_save_quantity dbC3 ⟨1, some 1, some 1, 1⟩).2.2
    1 1 rfl rfl (by decide) (by decide) (by decide)
  rw [h]
  decide

/-- Row of `users.models.CustomerUser`; `password` stores the (hashed)
password string, and optional profile fields are empty strings when unset,
as in Django. -/
structure CustomerUser where
  id : Nat
  username : String
  email : String
  password : String
  first_name : String
  last_name : String
  phone_number : String
  shipping_address : String
  billing_address : String
  deriving DecidableEq

/-- Membership in Python `string.punctuation`: the ASCII characters of
codes 33-47, 58-64, 91-96 and 123-126. -/
def inStringPunctuation (c : Char) : Bool :=
  (33 ≤ c.toNat && c.toNat ≤ 47) || (58 ≤ c.toNat && c.toNat ≤ 64) ||
    (91 ≤ c.toNat && c.toNat ≤ 96) || (123 ≤ c.toNat && c.toNat ≤ 126)

/-- `CustomerUser.validate_password_complexity` (users/models.py lines
84-109): length at least 8, an uppercase letter, a lowercase letter, a
digit, and a character of `string.punctuation` (ASCII model of the Python
per-character predicates). The misspelling in the first message is the
source text. -/
def validate_password_complexity (value : String) : Option Err :=
  if value.length < 8 then
    some (.validationError "Password needs to be at least 8 chatacters long.")
  else if (value.data.any fun c => c.isUpper) = false then
    some (.validationError
      "Password must contain at least one uppercase letter.")
  else if (value.data.any fun c => c.isLower) = false then
    some (.validationError
      "Password must contain at least one lowercase letter.")
  else if (value.data.any fun c => c.isDigit) = false then
    some (.validationError "Password must contain at least one digit.")
  else if (value.data.any inStringPunctuation) = false then
    some (.validationError "Password must contain at least one symbol.")
  else none

/-- `CustomerUser.validate_username_complexity` (users/models.py lines
111-121): length between 4 and 20. -/
def validate_username_complexity (value : String) : Option Err :=
  if value.length < 4 then
    some (.validationError "Username must be at least 4 characters long.")
  else if 20 < value.length then
    some (.validationError
      "Username cannot be more than 20 characters long.")
  else none

/-- `CustomerUser.validate_phone_number_complexity` (users/models.py lines
123-128): length at most 20. -/
def validate_phone_number_complexity (value : String) : Option Err :=
  if 20 < value.length then
    some (.validationError
      "Phone number cannot be more than 20 characters long.")
  else none

/-- Split a character list on a separator character; always returns at
least one (possibly empty) chunk, like Python `str.split`. -/
def splitOnChar (cs : List Char) (sep : Char) : List (List Char) :=
  match cs with
  | [] => [[]]
  | c :: rest =>
    let r := splitOnChar rest sep
    if c = sep then [] :: r
    else match r with
      | [] => [[c]]
      | h :: t => (c :: h) :: t

/-- Model of `django.core.validators.validate_email` (framework code):
exactly one at-sign separating a non-empty local part from a domain of at
least two non-empty dot-separated labels. Sufficient for the concrete
addresses appearing in the claims. -/
def email_valid (s : String) : Bool :=
  match splitOnChar s.data '@' with
  | [localPart, domain] =>
    localPart ≠ [] &&
      2 ≤ (splitOnChar domain '.').length &&
      (splitOnChar domain '.').all (fun l => l ≠ [])
  | _ => false

/-- `CustomerUser.clean` (users/models.py lines 130-152), check for check in
source order: non-empty username, email, password, first name, last name,
then the three complexity validators and `validate_email`. -/
def CustomerUser.clean (u : CustomerUser) : Option Err :=
  if u.username = "" then some (.validationError "Name cannot be empty.")
  else if u.email = "" then some (.validationError "Email cannot be empty.")
  else if u.password = "" then
    some (.validationError "Password cannot be empty.")
  else if u.first_name = "" then
    some (.validationError "First name cannot be empty.")
  else if u.last_name = "" then
    some (.validationError "Last name cannot be empty.")
  else match validate_password_complexity u.password with
  | some e => some e
  | none => match validate_username_complexity u.username with
    | some e => some e
    | none => match validate_phone_number_complexity u.phone_number with
      | some e => some e
      | none =>
        if email_valid u.email = false then
          some (.validationError "Enter a valid email address.")
        else none

/-- Insert-or-update of a user row by primary key. -/
def upsertUser (db : List CustomerUser) (u : CustomerUser) :
    List CustomerUser :=
  if db.any (fun v => v.id = u.id) then
    db.map (fun v => if v.id = u.id then u else v)
  else db ++ [u]

/-- `CustomerUser.save` (users/models.py lines 154-156): run `clean`, then
write the row; the database enforces the unique constraints on `username`
(from `AbstractUser`) and `email` (`unique=True`, users/models.py line 45)
against the other rows. -/
def CustomerUser.save (u : CustomerUser) (db : List CustomerUser) :
    List CustomerUser × Option Err :=
  match u.clean with
  | some e => (db, some e)
  | none =>
    if db.any (fun v => v.id ≠ u.id &&
        (v.username = u.username || v.email = u.email)) then
      (db, some .integrityError)
    else (upsertUser db u, none)

/-- Claim C9: a CustomerUser save with an empty first name or an empty last
name is rejected with a validation error and nothing is persisted. -/
theorem customer_user_save_requires_names (db : List CustomerUser)
    (u : CustomerUser) (h : u.first_name = "" ∨ u.last_name = "") :
    (CustomerUser.save u db).1 = db ∧
      ∃ m, (CustomerUser.save u db).2 = some (.validationError m) := by
  have hc : ∃ m, u.clean = some (.validationError m) := by
    unfold CustomerUser.clean
    split_ifs <;>
      first
      | exact ⟨_, rfl⟩
      | (rcases h with hx | hx <;> simp_all)
  obtain ⟨m, hm⟩ := hc
  unfold CustomerUser.save
  rw [hm]
  exact ⟨rfl, m, rfl⟩

/-- User state used by the claim C9 witness: a valid account except for the
empty first name. -/
def uC9 : CustomerUser :=
  { id := 1, username := "testuser", email := "test@email.com",
    password := "StrongPass1!", first_name := "", last_name := "User",
    phone_number := "", shipping_address := "", billing_address := "" }

/-- Witness for claim C9: saving `uC9` into an empty store persists nothing
and reports a validation error. -/
theorem customer_user_save_requires_names_witness :
    (CustomerUser.save uC9 []).1 = [] ∧
      ∃ m, (CustomerUser.save uC9 []).2 = some (.validationError m) :=
  customer_user_save_requires_names [] uC9 (Or.inl rfl)

/-- `CustomPasswordValidator.validate` (users/validators.py lines 26-50),
check for check in source order; the character classes are those of the
regexes `[A-Z]`, `[a-z]`, `[0-9]` and `[^A-Za-z0-9]` (`Char.isUpper`,
`Char.isLower`, `Char.isDigit` are exactly the ASCII ranges). This
validator has no length check. -/
def CustomPasswordValidator.validate (password : String) : Option Err :=
  if (password.data.any fun c => c.isUpper) = false then
    some (.validationError "Password must contain at least 1 uppercase letter.")
  else if (password.data.any fun c => c.isLower) = false then
    some (.validationError "Password must contain at least 1 lowercase letter.")
  else if (password.data.any fun c => c.isDigit) = false then
    some (.validationError "Password must contain at least 1 digit.")
  else if (password.data.any fun c => !(c.isUpper || c.isLower || c.isDigit)) = false then
    some (.validationError "Password must contain at least 1 special character.")
  else none

/-- Modelled from the spec: the Django settings module (not under src/)
configures `AUTH_PASSWORD_VALIDATORS` for
`django.contrib.auth.password_validation.validate_password`, which the
serializer calls at registration. Per the spec (section 4.3, length at
least 8) and the repository test `test_register_user_short_password`, the
configuration includes the framework minimum-length validator at its
default of 8, alongside `CustomPasswordValidator`. -/
def MinimumLengthValidator.validate (password : String) : Option Err :=
  if password.length < 8 then
    some (.validationError
      "This password is too short. It must contain at least 8 characters.")
  else none

/-- `django.contrib.auth.password_validation.validate_password` with the
configured validators: minimum length, then the custom validator. -/
def validate_password (password : String) : Option Err :=
  match MinimumLengthValidator.validate password with
  | some e => some e
  | none => CustomPasswordValidator.validate password

/-- Registration input: the fields `CustomerUserSerializer` accepts; `none`
models a field absent from the posted data. -/
structure RegistrationRequest where
  username : Option String
  email : Option String
  first_name : Option String
  last_name : Option String
  password : Option String
  phone_number : Option String
  shipping_address : Option String
  billing_address : Option String
  deriving DecidableEq

/-- Character class of Django `UnicodeUsernameValidator` (framework code,
attached to `AbstractUser.username`): regex `[\w.@+-]+`, ASCII model —
letters, digits, underscore, dot, at-sign, plus, hyphen; non-empty. -/
def UnicodeUsernameValidator_valid (s : String) : Bool :=
  s ≠ "" && s.data.all (fun c =>
    c.isAlphanum || c = '_' || c = '.' || c = '@' || c = '+' || c = '-')

/-- The `RegexValidator` declared on `CustomerUserSerializer.phone_number`
(users/serializers.py lines 10-22): regex `^[0-9*+#-]+$`. -/
def phone_number_regex_valid (s : String) : Bool :=
  s ≠ "" && s.data.all (fun c =>
    c.isDigit || c = '*' || c = '+' || c = '#' || c = '-')

/-- Field-stage failure of the `username` field: a present value not
matching `UnicodeUsernameValidator`. -/
def username_field_invalid (o : Option String) : Bool :=
  match o with
  | none => false
  | some s => !(UnicodeUsernameValidator_valid s)

/-- Field-stage failure of the `email` field: a present value not
matching the `EmailValidator` (users/models.py lines 46-48). -/
def email_field_invalid (o : Option String) : Bool :=
  match o with
  | none => false
  | some e => !(email_valid e)

/-- Field-stage failure of the `phone_number` field: the serializer field
is declared `required=False, allow_blank=True`, so an absent or blank value
passes; a non-blank value must match the regex. -/
def phone_field_invalid (o : Option String) : Bool :=
  match o with
  | none => false
  | some p => p ≠ "" && !(phone_number_regex_valid p)

/-- The DRF field-validation stage of `CustomerUserSerializer.is_valid()`
(run inside `to_internal_value`, before the serializer method `validate`):
per declared field, its validators — `username`: the framework
`UnicodeUsernameValidator` and the unique constraint; `email`: the
`EmailValidator` of users/models.py lines 46-48 and the unique constraint;
`phone_number`: the `RegexValidator` of users/serializers.py lines 10-22.
DRF aggregates the failing fields into one field-keyed 400 response; the
model returns the first failing field's error, which is one of the keys of
that aggregate. If this stage fails, the serializer method `validate` —
and with it the password check — never runs. -/
def serializer_run_fields (db : List CustomerUser)
    (req : RegistrationRequest) : Option Err :=
  if username_field_invalid req.username then
    some (.fieldError "username"
      "Enter a valid username. This value may contain only letters, numbers, and @/./+/-/_ characters.")
  else if db.any (fun v => req.username = some v.username) then
    some (.fieldError "username"
      "A user with that username already exists.")
  else if email_field_invalid req.email then
    some (.fieldError "email" "Please enter a valid email address.")
  else if db.any (fun v => req.email = some v.email) then
    some (.fieldError "email"
      "user with this email address already exists.")
  else if phone_field_invalid req.phone_number then
    some (.fieldError "phone_number"
      "Phone number can only contain digits (0-9) and symbols (*+#-).")
  else none

/-- The serializer method `CustomerUserSerializer.validate`
(users/serializers.py lines 31-47) on the create path
(`self.instance is None`): required-field presence in source order, then
`validate_password` on the candidate password, a failure of which is
re-raised keyed by the `password` field. In the program this method runs
only after the field stage (`serializer_run_fields`) has passed; `register`
sequences the two accordingly. -/
def serializer_validate (req : RegistrationRequest) : Option Err :=
  if req.email.isNone then
    some (.fieldError "email" "email field is required.")
  else if req.first_name.isNone then
    some (.fieldError "first_name" "first_name field is required.")
  else if req.last_name.isNone then
    some (.fieldError "last_name" "last_name field is required.")
  else if req.username.isNone then
    some (.fieldError "username" "username field is required.")
  else if req.password.isNone then
    some (.fieldError "password" "password field is required.")
  else match validate_password (req.password.getD "") with
    | some (.validationError m) => some (.fieldError "password" m)
    | some e => some e
    | none => none

/-- Model of `set_password` (framework code): a PBKDF2 hash string; the
model keeps the algorithm prefix, iteration count and the raw password so
that the result is a concrete computable string of the hash shape. -/
def hash_password (raw : String) : String :=
  "pbkdf2_sha256$720000$" ++ raw

/-- Fresh primary key for a new user row. -/
def freshUserId (db : List CustomerUser) : Nat :=
  (db.map (fun v => v.id)).foldr max 0 + 1

/-- The user row `CustomerUserSerializer.create` builds from validated
registration data (users/serializers.py lines 73-78): the posted fields,
with the password hashed by `set_password`. -/
def mkRegisteredUser (db : List CustomerUser) (req : RegistrationRequest) :
    CustomerUser :=
  { id := freshUserId db,
    username := req.username.getD "",
    email := req.email.getD "",
    password := hash_password (req.password.getD ""),
    first_name := req.first_name.getD "",
    last_name := req.last_name.getD "",
    phone_number := req.phone_number.getD "",
    shipping_address := req.shipping_address.getD "",
    billing_address := req.billing_address.getD "" }

/-- `RegisterView.perform_create` with `CustomerUserSerializer`
(users/views/authentication.py lines 44-68, users/serializers.py lines
31-47 and 73-78), restricted to its effect on user rows: the DRF field
stage (`serializer_run_fields`: format validators and the unique
constraints on `username` and `email`) runs first, then the serializer
method `validate` (`serializer_validate`), then `create` builds the user
with the hashed password and saves it (`CustomerUser.save` runs `clean`);
the whole block is wrapped in `transaction.atomic`, so a failing save
leaves the store unchanged. Group, permission and token side effects touch
no user row and are not modelled. -/
def register (db : List CustomerUser) (req : RegistrationRequest) :
    List CustomerUser × Option Err :=
  match serializer_run_fields db req with
  | some e => (db, some e)
  | none =>
    match serializer_validate req with
    | some e => (db, some e)
    | none =>
      match CustomerUser.save (mkRegisteredUser db req) db with
      | (db', none) => (db', none)
      | (_, some e) => (db, some e)

/-- Pairwise distinctness of usernames and emails over stored users. -/
def usersDistinct (db : List CustomerUser) : Prop :=
  db.Pairwise (fun a b => a.username ≠ b.username ∧ a.email ≠ b.email)

lemma le_foldr_max (l : List Nat) (x : Nat) (hx : x ∈ l) :
    x ≤ l.foldr max 0 := by
  induction l with
  | nil => cases hx
  | cons a t ih =>
    rcases List.mem_cons.mp hx with h | h
    · subst h; exact le_max_left _ _
    · exact le_trans (ih h) (le_max_right _ _)

lemma freshUserId_not_mem (db : List CustomerUser) (v : CustomerUser)
    (hv : v ∈ db) : v.id ≠ freshUserId db := by
  have : v.id ≤ (db.map (fun v => v.id)).foldr max 0 :=
    le_foldr_max _ _ (List.mem_map_of_mem _ hv)
  unfold freshUserId
  omega

lemma bool_ne_true {b : Bool} (h : ¬ b = true) : b = false := by
  cases b
  · rfl
  · exact absurd rfl h

lemma serializer_run_fields_none (db : List CustomerUser)
    (req : RegistrationRequest) (h : serializer_run_fields db req = none) :
    (db.any fun v => req.username = some v.username) = false ∧
    (db.any fun v => req.email = some v.email) = false := by
  unfold serializer_run_fields at h
  split_ifs at h with h1 h2 h3 h4 h5
  exact ⟨bool_ne_true h2, bool_ne_true h4⟩

lemma serializer_run_fields_some_of_dup (db : List CustomerUser)
    (req : RegistrationRequest) (u : CustomerUser) (hu : u ∈ db)
    (hdup : req.username = some u.username ∨ req.email = some u.email) :
    ∃ e, serializer_run_fields db req = some e := by
  unfold serializer_run_fields
  split_ifs with h1 h2 h3 h4 h5
  · exact ⟨_, rfl⟩
  · exact ⟨_, rfl⟩
  · exact ⟨_, rfl⟩
  · exact ⟨_, rfl⟩
  · exact ⟨_, rfl⟩
  · exfalso
    rcases hdup with hd | hd
    · have := List.any_eq_false.mp (bool_ne_true h2) u hu
      simp [hd] at this
    · have := List.any_eq_false.mp (bool_ne_true h4) u hu
      simp [hd] at this

lemma serializer_validate_none_isSome (req : RegistrationRequest)
    (h : serializer_validate req = none) :
    req.username.isSome = true ∧ req.email.isSome = true := by
  unfold serializer_validate at h
  split_ifs at h with h1 h2 h3 h4 h5
  constructor
  · cases hx : req.username with
    | none => rw [hx] at h4; exact absurd rfl h4
    | some s => rfl
  · cases hx : req.email with
    | none => rw [hx] at h1; exact absurd rfl h1
    | some s => rfl

/-- Claim C8: a registration whose username or email equals that of a
stored user fails and leaves the store unchanged; and registration
preserves pairwise distinctness of usernames and emails. -/
theorem register_uniqueness (db : List CustomerUser)
    (req : RegistrationRequest) :
    (∀ u ∈ db, (req.username = some u.username ∨ req.email = some u.email) →
      (register db req).1 = db ∧ ∃ e, (register db req).2 = some e) ∧
    (∀ db', usersDistinct db → register db req = (db', none) →
      usersDistinct db') := by
  constructor
  · intro u hu hdup
    obtain ⟨e, he⟩ := serializer_run_fields_some_of_dup db req u hu hdup
    unfold register
    rw [he]
    exact ⟨rfl, e, rfl⟩
  · intro db' hdist hok
    unfold register at hok
    cases hfs : serializer_run_fields db req with
    | some e => rw [hfs] at hok; simp at hok
    | none =>
      rw [hfs] at hok
      obtain ⟨hany1, hany2⟩ := serializer_run_fields_none db req hfs
      cases hser : serializer_validate req with
      | some e => rw [hser] at hok; simp at hok
      | none =>
          rw [hser] at hok
          cases hsave : CustomerUser.save (mkRegisteredUser db req) db with
          | mk db1 oerr =>
            cases oerr with
            | some e => rw [hsave] at hok; simp at hok
            | none =>
              rw [hsave] at hok
              simp only [Prod.mk.injEq] at hok
              obtain ⟨hdb1, -⟩ := hok
              subst hdb1
              have hid : (mkRegisteredUser db req).id = freshUserId db := rfl
              have happend : db1 = db ++ [mkRegisteredUser db req] := by
                unfold CustomerUser.save at hsave
                cases hclean : (mkRegisteredUser db req).clean with
                | some e => rw [hclean] at hsave; simp at hsave
                | none =>
                  rw [hclean] at hsave
                  split_ifs at hsave with hdup
                  · simp at hsave
                  · simp only [Prod.mk.injEq] at hsave
                    obtain ⟨hup, -⟩ := hsave
                    rw [← hup]
                    unfold upsertUser
                    rw [if_neg]
                    simp only [List.any_eq_true, decide_eq_true_eq, not_exists]
                    intro v
                    rw [not_and]
                    intro hv
                    rw [hid]
                    exact freshUserId_not_mem db v hv
              obtain ⟨hun, hem⟩ := serializer_validate_none_isSome req hser
              obtain ⟨su, hsu⟩ := Option.isSome_iff_exists.mp hun
              obtain ⟨se, hse⟩ := Option.isSome_iff_exists.mp hem
              have husername : (mkRegisteredUser db req).username = su := by
                unfold mkRegisteredUser
                rw [hsu]
                rfl
              have hemailv : (mkRegisteredUser db req).email = se := by
                unfold mkRegisteredUser
                rw [hse]
                rfl
              rw [happend]
              unfold usersDistinct
              rw [List.pairwise_append]
              refine ⟨hdist, List.pairwise_singleton _ _, ?_⟩
              intro a ha b hb
              rw [List.mem_singleton] at hb
              subst hb
              constructor
              · rw [husername]
                have := List.any_eq_false.mp hany1 a ha
                simp only [decide_eq_true_eq, hsu] at this
                intro hcontra
                exact this (by rw [hcontra])
              · rw [hemailv]
                have := List.any_eq_false.mp hany2 a ha
                simp only [decide_eq_true_eq, hse] at this
                intro hcontra
                exact this (by rw [hcontra])

/-- Registration request used by the claim C8 witness. -/
def reqC8 : RegistrationRequest :=
  { username := some "testuser", email := some "test@email.com",
    first_name := some "Test", last_name := some "User",
    password := some "StrongPass1?", phone_number := none,
    shipping_address := none, billing_address := none }

/-- The stored user produced by successfully registering `reqC8` into the
empty store. -/
def u8 : CustomerUser :=
  { id := 1, username := "testuser", email := "test@email.com",
    password := "pbkdf2_sha256$720000$StrongPass1?",
    first_name := "Test", last_name := "User", phone_number := "",
    shipping_address := "", billing_address := "" }

/-- Witness for claim C8: registering `reqC8` twice: the first registration
into the empty store succeeds and yields a distinct store, and the second
attempt against the resulting store fails leaving it unchanged. -/
theorem register_uniqueness_witness :
    ((register [u8] reqC8).1 = [u8] ∧
      ∃ e, (register [u8] reqC8).2 = some e) ∧
    usersDistinct [u8] := by
  constructor
  · exact (register_uniqueness [u8] reqC8).1 u8 (by simp) (Or.inl rfl)
  · exact (register_uniqueness [] reqC8).2 [u8]
      (by unfold usersDistinct; simp) (by decide)

/-- Deletion of a `Category` row: the schema declares `Category.parent`
with `on_delete=SET_NULL` (products/models.py lines 72-73) and
`ProductCategory.category` with `on_delete=CASCADE` (line 172), so the ORM
nulls the parent reference of surviving children and removes the join rows
referencing the deleted category. -/
def Category.delete (c : Category) (db : Store) : Store :=
  { db with
    categories := (db.categories.filter (fun k => k.id ≠ c.id)).map
      (fun k => if k.parent = some c.id then { k with parent := none } else k),
    productCategories :=
      db.productCategories.filter (fun j => j.category ≠ c.id) }

/-- Claim C5: deleting a Category nulls the parent reference of each child
(child rows survive with all other fields unchanged, and no surviving row
references the deleted id), removes exactly the ProductCategory rows
referencing the deleted category, and touches nothing else. -/
theorem category_delete_effects (db : Store) (c : Category) :
    (∀ k ∈ db.categories, k.id ≠ c.id →
      (if k.parent = some c.id then { k with parent := none } else k) ∈
        (Category.delete c db).categories) ∧
    (∀ k' ∈ (Category.delete c db).categories, k'.parent ≠ some c.id) ∧
    (∀ j, j ∈ (Category.delete c db).productCategories ↔
      j ∈ db.productCategories ∧ j.category ≠ c.id) ∧
    (Category.delete c db).products = db.products ∧
    (Category.delete c db).units = db.units ∧
    (Category.delete c db).images = db.images ∧
    (Category.delete c db).files = db.files ∧
    (Category.delete c db).cartItems = db.cartItems := by
  refine ⟨?_, ?_, ?_, rfl, rfl, rfl, rfl, rfl⟩
  · intro k hk hne
    exact List.mem_map_of_mem _
      (List.mem_filter.mpr ⟨hk, by simpa using hne⟩)
  · intro k' hk'
    obtain ⟨k, hk, hmap⟩ := List.mem_map.mp hk'
    by_cases hp : k.parent = some c.id
    · rw [if_pos hp] at hmap
      rw [← hmap]
      simp
    · rw [if_neg hp] at hmap
      rw [← hmap]
      exact hp
  · intro j
    simp [Category.delete, List.mem_filter]

/-- Store used by the claim C5 witness: a parent category, a child
referencing it, and one join row referencing the parent. -/
def dbC5 : Store :=
  { units := [], categories := [⟨1, "Electronics", none⟩, ⟨2, "Phones", some 1⟩],
    products := [], productCategories := [⟨1, 7, 1⟩, ⟨2, 7, 2⟩],
    images := [], files := [], carts := [], cartItems := [] }

/-- Witness for claim C5: deleting category 1 from `dbC5` keeps the child
with its parent nulled, and the join row referencing category 2 survives
while the one referencing category 1 is gone. -/
theorem category_delete_effects_witness :
    (⟨2, "Phones", none⟩ : Category) ∈
      (Category.delete ⟨1, "Electronics", none⟩ dbC5).categories ∧
    ((⟨2, 7, 2⟩ : ProductCategory) ∈
        (Category.delete ⟨1, "Electronics", none⟩ dbC5).productCategories ∧
      ¬ (⟨1, 7, 1⟩ : ProductCategory) ∈
        (Category.delete ⟨1, "Electronics", none⟩ dbC5).productCategories) := by
  have h := category_delete_effects dbC5 ⟨1, "Electronics", none⟩
  refine ⟨?_, ?_, ?_⟩
  · have := h.1 ⟨2, "Phones", some 1⟩ (by simp [dbC5]) (by decide)
    simpa using this
  · exact (h.2.2.1 ⟨2, 7, 2⟩).mpr ⟨by simp [dbC5], by decide⟩
  · intro hmem
    exact absurd ((h.2.2.1 ⟨1, 7, 1⟩).mp hmem).2 (by decide)

/-- Cascade effect of `super().delete()` on a `Product` row: the schema
declares `ProductCategory.product`, `Image.product` and `CartItem.product`
all `on_delete=CASCADE` (products/models.py lines 171, 184, 225). -/
def cascadeDeleteProduct (p : Product) (db : Store) : Store :=
  { db with
    products := db.products.filter (fun q => q.id ≠ p.id),
    images := db.images.filter (fun i => i.product ≠ p.id),
    productCategories :=
      db.productCategories.filter (fun j => j.product ≠ p.id),
    cartItems := db.cartItems.filter (fun ci => ci.product ≠ some p.id) }

/-- `Product.delete` (products/models.py lines 145-153):
`Image.objects.get(product=self)` has the usual `get` semantics — no row
caught as `DoesNotExist` and passed over, exactly one row returned, more
than one raising `MultipleObjectsReturned` (uncaught, aborting the delete);
the found image deletes its backing file (when non-empty) and its row, and
then `super().delete()` cascades. -/
def Product.delete (p : Product) (db : Store) : Store × Option Err :=
  match db.images.filter (fun i => i.product = p.id) with
  | [] => (cascadeDeleteProduct p db, none)
  | [img] =>
    (cascadeDeleteProduct p
      { db with
        files := if img.image_file = "" then db.files
          else db.files.erase img.image_file,
        images := db.images.filter (fun i => i.id ≠ img.id) }, none)
  | _ => (db, some .multipleObjectsReturned)

/-- Claim C4: deleting a Product that has (exactly one) Image removes the
image backing file from storage and every image row of the product,
removes exactly the ProductCategory rows referencing the product, and
removes the product row, keeping the other product rows. -/
theorem product_delete_cascade (db : Store) (p : Product) (img : Image)
    (h : db.images.filter (fun i => i.product = p.id) = [img]) :
    (Product.delete p db).2 = none ∧
    (Product.delete p db).1.files =
      (if img.image_file = "" then db.files
        else db.files.erase img.image_file) ∧
    (∀ i ∈ (Product.delete p db).1.images, i.product ≠ p.id) ∧
    (∀ j, j ∈ (Product.delete p db).1.productCategories ↔
      j ∈ db.productCategories ∧ j.product ≠ p.id) ∧
    (∀ q ∈ (Product.delete p db).1.products, q.id ≠ p.id) ∧
    (∀ q ∈ db.products, q.id ≠ p.id → q ∈ (Product.delete p db).1.products) := by
  unfold Product.delete
  rw [h]
  refine ⟨rfl, rfl, ?_, ?_, ?_, ?_⟩
  · intro i hi
    simp only [cascadeDeleteProduct, List.mem_filter, decide_eq_true_eq] at hi
    exact hi.2
  · intro j
    simp [cascadeDeleteProduct, List.mem_filter]
  · intro q hq
    simp only [cascadeDeleteProduct, List.mem_filter, decide_eq_true_eq] at hq
    exact hq.2
  · intro q hq hne
    simp only [cascadeDeleteProduct, List.mem_filter, decide_eq_true_eq]
    exact ⟨hq, hne⟩

/-- Store used by the claim C4 witness: the example product with one image
whose backing file is in storage, one join row, and an unrelated product. -/
def dbC4 : Store :=
  { units := [⟨1, "Kilogram", "kg"⟩], categories := [⟨1, "Electronics", none⟩],
    products := [pC1, { pC1 with id := 2, name := "Other" }],
    productCategories := [⟨1, 1, 1⟩, ⟨2, 2, 1⟩],
    images := [⟨1, "product_images/test.png", 1⟩],
    files := ["product_images/test.png"], carts := [], cartItems := [] }

/-- Witness for claim C4: deleting the example product from `dbC4` succeeds,
empties the file storage, and leaves exactly the unrelated join row. -/
theorem product_delete_cascade_witness :
    (Product.delete pC1 dbC4).2 = none ∧
    (Product.delete pC1 dbC4).1.files = [] ∧
    ((⟨2, 2, 1⟩ : ProductCategory) ∈
      (Product.delete pC1 dbC4).1.productCategories ∧
      ∀ q ∈ (Product.delete pC1 dbC4).1.products, q.id ≠ pC1.id) := by
  have h := product_delete_cascade dbC4 pC1 ⟨1, "product_images/test.png", 1⟩
    (by decide)
  refine ⟨h.1, ?_, ?_, h.2.2.2.2.1⟩
  · rw [h.2.1]
    decide
  · exact (h.2.2.2.1 ⟨2, 2, 1⟩).mpr ⟨by simp [dbC4], by decide⟩

/-- `ProductViewSet.handle_categories` (products/views/product_viewset.py
lines 118-134): resolve each name through `Category.objects.get(name=...)`
in order — `DoesNotExist` is re-raised as `NotFound` (whose detail
interpolates the missing name; the model carries the bare name), and
`MultipleObjectsReturned` (several rows sharing the name) propagates
uncaught. An empty list resolves to the empty id list. Never writes. -/
def handle_categories (db : Store) (names : List String) :
    Except Err (List Nat) :=
  match names with
  | [] => .ok []
  | n :: rest =>
    match db.categories.filter (fun k => k.name = n) with
    | [] => .error (.notFound n)
    | [k] =>
      match handle_categories db rest with
      | .ok ids => .ok (k.id :: ids)
      | .error e => .error e
    | _ => .error .multipleObjectsReturned

/-- `ProductViewSet.handle_unit` (products/views/product_viewset.py lines
144-155): a falsy unit name (absent or empty) raises
`NotFound("Unit cannot be empty")`; otherwise `Unit.objects.get(name=...)`
resolves it, re-raising `DoesNotExist` as `NotFound` (detail carries the
name) and propagating `MultipleObjectsReturned`. -/
def handle_unit (db : Store) (unit_data : Option String) : Except Err Nat :=
  match unit_data with
  | some u =>
    if u = "" then .error (.notFound "Unit cannot be empty")
    else match db.units.filter (fun r => r.name = u) with
      | [] => .error (.notFound u)
      | [r] => .ok r.id
      | _ => .error .multipleObjectsReturned
  | none => .error (.notFound "Unit cannot be empty")

/-- A product create/update request after multipart parsing: category
names, a unit name, the product fields, and an optional uploaded image
file name. Numeric fields arrive already parsed; `none` image means no
file part. -/
structure ProductRequest where
  categories : List String
  unit : Option String
  name : String
  description : String
  price : Rat
  discount : Int
  quantity_per_unit : Rat
  currency : String
  image : Option String
  deriving DecidableEq

/-- Model of `serializer.is_valid()` for `ProductSerializer` (framework
field validation over the declared model fields): required character
fields non-blank and length-bounded, and the declared
`MinValueValidator(0)`/`MaxValueValidator(100)` on `discount`. The
resolved unit and category ids always lie in the respective querysets by
construction of the pipeline. Note it does not check sign of `price` or
`quantity_per_unit` — those are only checked by `Product.clean`. -/
def product_serializer_valid (req : ProductRequest) : Bool :=
  req.name ≠ "" && req.name.length ≤ 200 &&
    req.description ≠ "" &&
    req.currency ≠ "" && req.currency.length ≤ 3 &&
    0 ≤ req.discount && req.discount ≤ 100

/-- The product row built from validated request data and the resolved
unit id, with a fresh primary key. -/
def mkProduct (pid : Nat) (req : ProductRequest) (unitId : Nat) : Product :=
  { id := pid, name := req.name, description := req.description,
    price := req.price, discount := req.discount, unit := some unitId,
    quantity_per_unit := req.quantity_per_unit, currency := req.currency }

/-- Fresh primary key for a new product row. -/
def freshProductId (db : Store) : Nat :=
  (db.products.map (fun q => q.id)).foldr max 0 + 1

/-- Fresh primary key for new join rows. -/
def freshPCId (db : Store) : Nat :=
  (db.productCategories.map (fun j => j.id)).foldr max 0 + 1

/-- Fresh primary key for a new image row. -/
def freshImageId (db : Store) : Nat :=
  (db.images.map (fun i => i.id)).foldr max 0 + 1

/-- Join rows for a product and a list of category ids, with consecutive
primary keys from `base`. -/
def pcRows (base pid : Nat) : List Nat → List ProductCategory
  | [] => []
  | c :: rest => ⟨base, pid, c⟩ :: pcRows (base + 1) pid rest

/-- `product.categories.set(ids)`: replace the join rows of the product by
rows for exactly the given category ids. -/
def setProductCategories (db : Store) (pid : Nat) (catIds : List Nat) :
    Store :=
  { db with productCategories :=
      db.productCategories.filter (fun j => j.product ≠ pid) ++
        pcRows (freshPCId db) pid catIds }

/-- `ProductViewSet.handle_image_upload` (products/views/product_viewset.py
lines 136-142): on a truthy file, `Image.objects.create` stores the image
row (its `clean` passes: file and product are set) and the backing file. -/
def handle_image_upload (db : Store) (pid : Nat) (image_file : Option String) :
    Store :=
  match image_file with
  | none => db
  | some f =>
    if f = "" then db
    else { db with
      images := db.images ++ [⟨freshImageId db, f, pid⟩],
      files := db.files ++ [f] }

/-- Outcome of a product viewset call: a 201/200 success carrying the
product id, a 400 serializer failure, or a raised exception (in which case
`transaction.atomic` has rolled the store back). -/
inductive ViewResponse where
  | success (pid : Nat)
  | badRequest
  | exception (e : Err)
  deriving DecidableEq

/-- The body of `ProductViewSet.create` (products/views/product_viewset.py
lines 33-65) inside the `transaction.atomic` block: resolve categories and
unit, validate, save the product row (`Product.objects.create` runs
`clean`), set the join rows, upload the image. An `Except.error` is an
exception escaping the block. -/
def create_inner (db : Store) (req : ProductRequest) :
    Except Err (Store × ViewResponse) :=
  match handle_categories db req.categories with
  | .error e => .error e
  | .ok catIds =>
    match handle_unit db req.unit with
    | .error e => .error e
    | .ok unitId =>
      if product_serializer_valid req then
        match Product.save (mkProduct (freshProductId db) req unitId) db with
        | (_, some e) => .error e
        | (db1, none) =>
          .ok (handle_image_upload
            (setProductCategories db1 (freshProductId db) catIds)
            (freshProductId db) req.image,
            .success (freshProductId db))
      else .ok (db, .badRequest)

/-- `ProductViewSet.create`: the atomic transaction around `create_inner` —
an escaping exception rolls every sub-write back, leaving the input store. -/
def product_viewset_create (db : Store) (req : ProductRequest) :
    Store × ViewResponse :=
  match create_inner db req with
  | .error e => (db, .exception e)
  | .ok (db', r) => (db', r)

/-- The updated row `ProductSerializer.update` produces: the instance with
the request fields assigned and the resolved unit id. (The model treats
the request as carrying every field; `partial=True` field omission is out
of scope of the claims.) -/
def mkUpdatedProduct (q : Product) (req : ProductRequest) (unitId : Nat) :
    Product :=
  { q with
    name := req.name, description := req.description,
    price := req.price, discount := req.discount, unit := some unitId,
    quantity_per_unit := req.quantity_per_unit, currency := req.currency }

/-- The body of `ProductViewSet.update` (products/views/product_viewset.py
lines 67-116) inside `transaction.atomic`: `get_object_or_404`, category
and unit resolution, validation, then `ProductSerializer.update` (join
rows are replaced before `instance.save()` runs `clean`), then image
replacement (the old image row of the product is looked up with `get`
semantics, its backing file deleted, and the new file uploaded). -/
def update_inner (db : Store) (pk : Nat) (req : ProductRequest) :
    Except Err (Store × ViewResponse) :=
  match db.products.filter (fun q => q.id = pk) with
  | [] => .error (.notFound "No Product matches the given query.")
  | [q] =>
    match handle_categories db req.categories with
    | .error e => .error e
    | .ok catIds =>
      match handle_unit db req.unit with
      | .error e => .error e
      | .ok unitId =>
        if product_serializer_valid req then
          match Product.save (mkUpdatedProduct q req unitId)
              (setProductCategories db pk catIds) with
          | (_, some e) => .error e
          | (db2, none) =>
            match req.image with
            | none => .ok (db2, .success pk)
            | some f =>
              if f = "" then .ok (db2, .success pk)
              else match db2.images.filter (fun i => i.product = pk) with
                | [] => .ok (handle_image_upload db2 pk (some f), .success pk)
                | [old] =>
                  .ok (handle_image_upload
                    { db2 with
                      files := if old.image_file = "" then db2.files
                        else db2.files.erase old.image_file,
                      images := db2.images.filter (fun i => i.id ≠ old.id) }
                    pk (some f), .success pk)
                | _ => .error .multipleObjectsReturned
        else .ok (db, .badRequest)
  | _ => .error .multipleObjectsReturned

/-- `ProductViewSet.update`: the atomic transaction around `update_inner`. -/
def product_viewset_update (db : Store) (pk : Nat) (req : ProductRequest) :
    Store × ViewResponse :=
  match update_inner db pk req with
  | .error e => (db, .exception e)
  | .ok (db', r) => (db', r)

lemma product_save_ok_shape (p : Product) (db db1 : Store)
    (h : Product.save p db = (db1, none)) :
    db1 = { db with products := upsertProduct db.products p } := by
  unfold Product.save at h
  cases hc : p.clean with
  | some e => rw [hc] at h; simp at h
  | none =>
    rw [hc] at h
    cases hu : p.unit with
    | none => rw [hu] at h; simp at h
    | some u =>
      rw [hu] at h
      cases hex : db.units.any (fun r => r.id = u) with
      | false => simp [hex] at h
      | true =>
        simp [hex] at h
        exact h.symm

lemma mem_upsertProduct_self (ps : List Product) (p : Product) :
    p ∈ upsertProduct ps p := by
  unfold upsertProduct
  split_ifs with h
  · obtain ⟨q, hq, hid⟩ := List.any_eq_true.mp h
    simp only [decide_eq_true_eq] at hid
    exact List.mem_map.mpr ⟨q, hq, by rw [if_pos hid]⟩
  · exact List.mem_append_right _ (List.mem_singleton.mpr rfl)

lemma pcRows_mem (pid : Nat) (l : List Nat) :
    ∀ base, ∀ cid ∈ l, ∃ j ∈ pcRows base pid l,
      j.product = pid ∧ j.category = cid := by
  induction l with
  | nil => intro base cid h; cases h
  | cons c rest ih =>
    intro base cid hc
    rcases List.mem_cons.mp hc with h | h
    · subst h
      exact ⟨⟨base, pid, cid⟩, List.mem_cons_self _ _, rfl, rfl⟩
    · obtain ⟨j, hj, hjp⟩ := ih (base + 1) cid h
      exact ⟨j, List.mem_cons_of_mem _ hj, hjp⟩

lemma handle_image_upload_products (db : Store) (pid : Nat)
    (im : Option String) :
    (handle_image_upload db pid im).products = db.products := by
  cases im with
  | none => rfl
  | some f =>
    by_cases hf : f = "" <;> simp [handle_image_upload, hf]

lemma handle_image_upload_mem (db : Store) (pid : Nat) (f : String)
    (hf : f ≠ "") :
    ∃ i ∈ (handle_image_upload db pid (some f)).images,
      i.product = pid ∧ i.image_file = f := by
  have himg : (handle_image_upload db pid (some f)).images =
      db.images ++ [⟨freshImageId db, f, pid⟩] := by
    simp [handle_image_upload, hf]
  rw [himg]
  exact ⟨⟨freshImageId db, f, pid⟩,
    List.mem_append_right _ (List.mem_singleton.mpr rfl), rfl, rfl⟩

lemma handle_image_upload_pcs (db : Store) (pid : Nat) (im : Option String) :
    (handle_image_upload db pid im).productCategories =
      db.productCategories := by
  cases im with
  | none => rfl
  | some f =>
    by_cases hf : f = "" <;> simp [handle_image_upload, hf]

/-- Claim C6: product create with categories and an image is atomic — the
resulting store either equals the input store (any failure: unknown
category or unit, serializer failure, model-validation failure) or carries
every sub-write: the product row, a join row per resolved category, and
the image row when a file was posted. -/
theorem product_create_atomic (db : Store) (req : ProductRequest) :
    (product_viewset_create db req).1 = db ∨
    (∃ catIds unitId,
      handle_categories db req.categories = .ok catIds ∧
      handle_unit db req.unit = .ok unitId ∧
      (product_viewset_create db req).2 = .success (freshProductId db) ∧
      (product_viewset_create db req).1 =
        handle_image_upload
          (setProductCategories
            { db with
              products := upsertProduct db.products
                (mkProduct (freshProductId db) req unitId) }
            (freshProductId db) catIds)
          (freshProductId db) req.image ∧
      mkProduct (freshProductId db) req unitId ∈
        (product_viewset_create db req).1.products ∧
      (∀ cid ∈ catIds,
        ∃ j ∈ (product_viewset_create db req).1.productCategories,
          j.product = freshProductId db ∧ j.category = cid) ∧
      (∀ f, req.image = some f → f ≠ "" →
        ∃ i ∈ (product_viewset_create db req).1.images,
          i.product = freshProductId db ∧ i.image_file = f)) := by
  cases hcat : handle_categories db req.categories with
  | error e =>
    left
    simp [product_viewset_create, create_inner, hcat]
  | ok catIds =>
    cases hunit : handle_unit db req.unit with
    | error e =>
      left
      simp [product_viewset_create, create_inner, hcat, hunit]
    | ok unitId =>
      cases hval : product_serializer_valid req with
      | false =>
        left
        simp [product_viewset_create, create_inner, hcat, hunit, hval]
      | true =>
        cases hsave : Product.save (mkProduct (freshProductId db) req unitId) db with
        | mk db1 oe =>
          cases oe with
          | some e =>
            left
            simp [product_viewset_create, create_inner, hcat, hunit, hval,
              hsave]
          | none =>
            right
            have hshape := product_save_ok_shape _ _ _ hsave
            subst hshape
            have hres : product_viewset_create db req =
                (handle_image_upload
                  (setProductCategories
                    { db with
                      products := upsertProduct db.products
                        (mkProduct (freshProductId db) req unitId) }
                    (freshProductId db) catIds)
                  (freshProductId db) req.image,
                 .success (freshProductId db)) := by
              simp [product_viewset_create, create_inner, hcat, hunit, hval,
                hsave]
            refine ⟨catIds, unitId, rfl, rfl, ?_, ?_, ?_, ?_, ?_⟩
            · rw [hres]
            · rw [hres]
            · rw [hres, handle_image_upload_products]
              exact mem_upsertProduct_self _ _
            · intro cid hcid
              rw [hres, handle_image_upload_pcs]
              obtain ⟨j, hj, hjp⟩ :=
                pcRows_mem (freshProductId db) catIds (freshPCId _) cid hcid
              exact ⟨j, List.mem_append_right _ hj, hjp⟩
            · intro f hf hfne
              rw [hres, hf]
              exact handle_image_upload_mem _ _ f hfne

/-- Store used by the claim C6 and C10 witnesses. -/
def dbC6 : Store :=
  { units := [⟨1, "Kilogram", "kg"⟩],
    categories := [⟨1, "Electronics", none⟩],
    products := [], productCategories := [], images := [], files := [],
    carts := [], cartItems := [] }

/-- A fully valid create request for the claim C6 witness. -/
def reqC6 : ProductRequest :=
  { categories := ["Electronics"], unit := some "Kilogram",
    name := "Test Product", description := "This is a test product",
    price := 100, discount := 10, quantity_per_unit := 1,
    currency := "USD", image := some "product_images/test.png" }

/-- Witness for claim C6: the concrete create against `dbC6` succeeds with
all three sub-writes present. -/
theorem product_create_atomic_witness :
    (product_viewset_create dbC6 reqC6).2 = .success 1 ∧
    mkProduct 1 reqC6 1 ∈ (product_viewset_create dbC6 reqC6).1.products ∧
    (∃ j ∈ (product_viewset_create dbC6 reqC6).1.productCategories,
      j.product = 1 ∧ j.category = 1) ∧
    (∃ i ∈ (product_viewset_create dbC6 reqC6).1.images,
      i.product = 1 ∧ i.image_file = "product_images/test.png") := by
  rcases product_create_atomic dbC6 reqC6 with h | ⟨catIds, unitId, hc, hu, h2, h3, h4, h5, h6⟩
  · exact absurd h (by decide)
  · have hcat : catIds = [1] := by
      have h0 : handle_categories dbC6 reqC6.categories = .ok [1] := rfl
      rw [h0] at hc
      exact (Except.ok.inj hc).symm
    have hunit : unitId = 1 := by
      have h0 : handle_unit dbC6 reqC6.unit = .ok 1 := rfl
      rw [h0] at hu
      exact (Except.ok.inj hu).symm
    subst hcat
    subst hunit
    have hfresh : freshProductId dbC6 = 1 := by decide
    rw [hfresh] at h2 h4 h5 h6
    exact ⟨h2, h4, h5 1 (by simp),
      h6 "product_images/test.png" rfl (by decide)⟩

/-- Store with two categories sharing a name, for the claim C7
counterexample (Category.name carries no uniqueness constraint). -/
def dbC7dup : Store :=
  { units := [], categories := [⟨1, "Dup", none⟩, ⟨2, "Dup", none⟩],
    products := [], productCategories := [], images := [], files := [],
    carts := [], cartItems := [] }

/-- Counterexample for claim C7 as stated: with two stored categories named
"Dup", resolving ["Dup"] neither returns ids of existing rows nor fails
with a not-found signal — `Category.objects.get` raises
`MultipleObjectsReturned`, which `handle_categories` does not catch. -/
theorem handle_categories_duplicate_counterexample :
    handle_categories dbC7dup ["Dup"] = .error .multipleObjectsReturned ∧
    (∀ ids : List Nat, handle_categories dbC7dup ["Dup"] ≠ .ok ids) ∧
    (∀ s : String,
      handle_categories dbC7dup ["Dup"] ≠ .error (.notFound s)) := by
  have h : handle_categories dbC7dup ["Dup"] =
      .error .multipleObjectsReturned := rfl
  refine ⟨h, ?_, ?_⟩
  · intro ids hcontra
    rw [h] at hcontra
    exact absurd hcontra (by simp)
  · intro s hcontra
    rw [h] at hcontra
    simp at hcontra

/-- Claim C7 amended: provided at most one stored row bears each supplied
name, every category name resolves to the id of a stored row (one id per
name, never creating anything) or resolution fails with a not-found signal
carrying a supplied name that no stored row bears; and likewise for a
non-empty unit name. (With several rows sharing a supplied name the lookup
instead fails with `MultipleObjectsReturned`.) -/
theorem name_resolution_amended (db : Store) :
    (∀ names : List String,
      (∀ n ∈ names,
        (db.categories.filter (fun k => k.name = n)).length ≤ 1) →
      (∃ ids, handle_categories db names = .ok ids ∧
        ids.length = names.length ∧
        ∀ i ∈ ids, ∃ k ∈ db.categories, k.id = i) ∨
      (∃ n ∈ names, handle_categories db names = .error (.notFound n) ∧
        ∀ k ∈ db.categories, k.name ≠ n)) ∧
    (∀ u : String, u ≠ "" →
      (db.units.filter (fun r => r.name = u)).length ≤ 1 →
      (∃ uid, handle_unit db (some u) = .ok uid ∧
        ∃ r ∈ db.units, r.id = uid ∧ r.name = u) ∨
      (handle_unit db (some u) = .error (.notFound u) ∧
        ∀ r ∈ db.units, r.name ≠ u)) := by
  constructor
  · intro names
    induction names with
    | nil =>
      intro hbound
      left
      exact ⟨[], rfl, rfl, by simp⟩
    | cons n rest ih =>
      intro hbound
      cases hfil : db.categories.filter (fun k => k.name = n) with
      | nil =>
        right
        refine ⟨n, List.mem_cons_self _ _, ?_, ?_⟩
        · simp [handle_categories, hfil]
        · intro k hk
          simpa using List.filter_eq_nil_iff.mp hfil k hk
      | cons k t =>
        cases t with
        | nil =>
          have hkmem : k ∈ db.categories := by
            have hin : k ∈ db.categories.filter (fun k => k.name = n) := by
              rw [hfil]
              simp
            exact (List.mem_filter.mp hin).1
          rcases ih (fun m hm => hbound m (List.mem_cons_of_mem _ hm)) with
            ⟨ids, hok, hlen, hmem⟩ | ⟨m, hm, herr, hnone⟩
          · left
            refine ⟨k.id :: ids, ?_, by simp [hlen], ?_⟩
            · simp [handle_categories, hfil, hok]
            · intro i hi
              rcases List.mem_cons.mp hi with h | h
              · exact ⟨k, hkmem, h.symm⟩
              · exact hmem i h
          · right
            refine ⟨m, List.mem_cons_of_mem _ hm, ?_, hnone⟩
            simp [handle_categories, hfil, herr]
        | cons k2 t2 =>
          exfalso
          have hb := hbound n (List.mem_cons_self _ _)
          rw [hfil] at hb
          simp at hb
  · intro u hu hbound
    cases hfil : db.units.filter (fun r => r.name = u) with
    | nil =>
      right
      constructor
      · simp [handle_unit, hu, hfil]
      · intro r hr
        simpa using List.filter_eq_nil_iff.mp hfil r hr
    | cons r t =>
      cases t with
      | nil =>
        left
        have hrmem : r ∈ db.units ∧ r.name = u := by
          have hin : r ∈ db.units.filter (fun r => r.name = u) := by
            rw [hfil]
            simp
          have h2 := List.mem_filter.mp hin
          exact ⟨h2.1, by simpa using h2.2⟩
        refine ⟨r.id, ?_, r, hrmem.1, rfl, hrmem.2⟩
        simp [handle_unit, hu, hfil]
      | cons r2 t2 =>
        exfalso
        rw [hfil] at hbound
        simp at hbound

/-- Store used by the claim C7 witness. -/
def dbC7 : Store :=
  { units := [⟨1, "Kilogram", "kg"⟩],
    categories := [⟨1, "Electronics", none⟩],
    products := [], productCategories := [], images := [], files := [],
    carts := [], cartItems := [] }

/-- Witness for the amended claim C7, at a store with unique names. -/
theorem name_resolution_amended_witness :
    ((∃ ids, handle_categories dbC7 ["Electronics"] = .ok ids ∧
        ids.length = (["Electronics"] : List String).length ∧
        ∀ i ∈ ids, ∃ k ∈ dbC7.categories, k.id = i) ∨
      (∃ n ∈ (["Electronics"] : List String),
        handle_categories dbC7 ["Electronics"] = .error (.notFound n) ∧
        ∀ k ∈ dbC7.categories, k.name ≠ n)) ∧
    ((∃ uid, handle_unit dbC7 (some "Kilogram") = .ok uid ∧
        ∃ r ∈ dbC7.units, r.id = uid ∧ r.name = "Kilogram") ∨
      (handle_unit dbC7 (some "Kilogram") = .error (.notFound "Kilogram") ∧
        ∀ r ∈ dbC7.units, r.name ≠ "Kilogram")) :=
  ⟨(name_resolution_amended dbC7).1 ["Electronics"] (by decide),
   (name_resolution_amended dbC7).2 "Kilogram" (by decide) (by decide)⟩

/-- Claim C10: `handle_unit` rejects an absent or empty unit name with
`NotFound("Unit cannot be empty")` and never returns an identifier for
such input; a create or update request with an absent or empty unit name
leaves the store unchanged (no product row written), and the create
response (once category resolution has succeeded) is exactly that
not-found exception. -/
theorem handle_unit_empty_rejection (db : Store) (pk : Nat)
    (req : ProductRequest) :
    (∀ u : Option String, (u = none ∨ u = some "") →
      handle_unit db u = .error (.notFound "Unit cannot be empty")) ∧
    (∀ (u : Option String) (uid : Nat), handle_unit db u = .ok uid →
      u ≠ none ∧ u ≠ some "") ∧
    ((req.unit = none ∨ req.unit = some "") →
      (product_viewset_create db req).1 = db ∧
      (product_viewset_update db pk req).1 = db) ∧
    ((req.unit = none ∨ req.unit = some "") →
      ∀ catIds, handle_categories db req.categories = .ok catIds →
        (product_viewset_create db req).2 =
          .exception (.notFound "Unit cannot be empty")) := by
  have hempty : ∀ u : Option String, (u = none ∨ u = some "") →
      handle_unit db u = .error (.notFound "Unit cannot be empty") := by
    rintro u (rfl | rfl) <;> rfl
  refine ⟨hempty, ?_, ?_, ?_⟩
  · intro u uid hok
    constructor <;> intro hcontra
    · rw [hcontra, hempty none (Or.inl rfl)] at hok
      simp at hok
    · rw [hcontra, hempty (some "") (Or.inr rfl)] at hok
      simp at hok
  · intro hu
    constructor
    · cases hcat : handle_categories db req.categories with
      | error e => simp [product_viewset_create, create_inner, hcat]
      | ok catIds =>
        simp [product_viewset_create, create_inner, hcat,
          hempty req.unit hu]
    · cases hpk : db.products.filter (fun q => q.id = pk) with
      | nil => simp [product_viewset_update, update_inner, hpk]
      | cons q t =>
        cases t with
        | nil =>
          cases hcat : handle_categories db req.categories with
          | error e =>
            simp [product_viewset_update, update_inner, hpk, hcat]
          | ok catIds =>
            simp [product_viewset_update, update_inner, hpk, hcat,
              hempty req.unit hu]
        | cons q2 t2 =>
          simp [product_viewset_update, update_inner, hpk]
  · intro hu catIds hcat
    simp [product_viewset_create, create_inner, hcat, hempty req.unit hu]

/-- Create request with an empty unit name, for the claim C10 witness. -/
def reqC10 : ProductRequest :=
  { reqC6 with unit := some "", categories := [] }

/-- Witness for claim C10: the empty unit name is rejected and the create
against `dbC6` leaves the store unchanged with the not-found response. -/
theorem handle_unit_empty_rejection_witness :
    handle_unit dbC6 (some "") = .error (.notFound "Unit cannot be empty") ∧
    (product_viewset_create dbC6 reqC10).1 = dbC6 ∧
    (product_viewset_update dbC6 1 reqC10).1 = dbC6 ∧
    (product_viewset_create dbC6 reqC10).2 =
      .exception (.notFound "Unit cannot be empty") := by
  have h := handle_unit_empty_rejection dbC6 1 reqC10
  exact ⟨h.1 (some "") (Or.inr rfl), (h.2.2.1 (Or.inr rfl)).1,
    (h.2.2.1 (Or.inr rfl)).2, h.2.2.2 (Or.inr rfl) [] rfl⟩

end ECommerce
